import Mathlib

/-
Verification of the periodization / autoregulation engine of
`calculos_fisio.py` (bodybuilding coach repository).

Embedding conventions:
* Python floats and decimal literals are modelled as exact rationals (`ℚ`);
  decimal constants from the source are written as fractions
  (e.g. `21.6 = 108/5`, `1.55 = 31/20`, `3.1 = 31/10`, `0.5 = 1/2`).
* A pandas DataFrame of daily records is a `List Registro` already sorted by
  date ascending (the source functions call `sort_values("Data")` on entry;
  the embedded functions receive the sorted list).  `df.iloc[-k]` is
  `doFim df k`.  Nullable cells are `Option`; `pd.to_numeric(...).fillna(0)`
  is `Option.getD 0`.
* Python `round(x, n)` uses banker's rounding; it is modelled as round half
  up (`Mathlib.round`).  The two agree except at exact half-ulp ties, which
  no statement below goes near.
* Dict results are structures whose optional keys are `Option` fields
  (`none` = key absent).  Interpolated human-readable message strings
  (`problema`, `motivo`, the panel f-string) are kept only where a claim
  needs them; the panel's HRV clause is modelled structurally by `TextoVfc`.
-/

-- ───────────────────────── basic numeric helpers ─────────────────────────

/-- Decimal rounding `round(x, n)` of the source, as round half up. -/
def roundTo (q : ℚ) (n : ℕ) : ℚ := (round (q * 10 ^ n) : ℤ) / 10 ^ n

/-- Arithmetic mean of a list, `Series.mean()`. -/
def media (l : List ℚ) : ℚ := l.sum / l.length

/-- The last `n` entries of a list, `Series.iloc[-n:]`. -/
def ultimos (l : List ℚ) (n : ℕ) : List ℚ := l.drop (l.length - n)

-- ───────────────────────── data model ─────────────────────────

/-- One row of the historical DataFrame (a `DailyRecord`). -/
structure Registro where
  data : ℤ
  peso : ℚ := 0
  bfAtual : ℚ := 0
  carga : Option ℚ := none
  faseHistorica : Option String := none
  deriving DecidableEq, Repr

/-- `df.iloc[-k]` on a date-sorted record list. -/
def doFim (df : List Registro) (k : ℕ) : Option Registro := df.get? (df.length - k)

/-- Weight at `iloc[-k]` (only read under a length guard in the source). -/
def pesoDoFim (df : List Registro) (k : ℕ) : ℚ := ((doFim df k).map Registro.peso).getD 0

/-- Body-fat% at `iloc[-k]`. -/
def bfDoFim (df : List Registro) (k : ℕ) : ℚ := ((doFim df k).map Registro.bfAtual).getD 0

/-- The dataclass `AtletaMetrics`. -/
structure AtletaMetrics where
  categoriaAlvo : String
  peso : ℚ
  bfAtual : ℚ
  bfAlvo : ℚ
  idade : ℤ
  vfcBase : ℚ
  vfcAtual : ℚ
  sleepScore : ℤ
  recoveryTime : ℤ
  fcRepouso : ℤ
  cargaTreino : ℚ
  faseSugerida : String
  usoPeds : Bool
  estagnadoDias : ℤ
  dataCompeticao : ℤ
  anosTreino : ℤ := 5
  deriving DecidableEq, Repr

/-- Property `AtletaMetrics.lbm`: `peso * (1 - bf_atual / 100)`. -/
def AtletaMetrics.lbm (a : AtletaMetrics) : ℚ := a.peso * (1 - a.bfAtual / 100)

/-- Property `AtletaMetrics.fm`: `peso * (bf_atual / 100)`. -/
def AtletaMetrics.fm (a : AtletaMetrics) : ℚ := a.peso * (a.bfAtual / 100)

-- ───────────────────────── TMB / GET / adaptive thermogenesis ─────────────────────────

/-- `calcular_tmb_katch_mcardle`: `370 + 21.6 * lbm`. -/
def calcular_tmb_katch_mcardle (peso bf : ℚ) : ℚ := 370 + (108 / 5) * (peso * (1 - bf / 100))

/-- `calcular_get`: `tmb * 1.55` (default activity level). -/
def calcular_get (tmb : ℚ) : ℚ := tmb * (31 / 20)

/-- `aplicar_termogenese_adaptativa`: subtract `min((weeks-4)*15, 200)` once past
4 weeks in deficit. -/
def aplicar_termogenese_adaptativa (calorias : ℚ) (semanasDeficit : ℕ) : ℚ :=
  if semanasDeficit ≤ 4 then calorias
  else calorias - ((min ((semanasDeficit - 4) * 15) 200 : ℕ) : ℚ)

-- ───────────────────────── weekly goals input for the evaluator ─────────────────────────

/-- The `metas` dict as read by `avaliar_resultados_semana` via `metas.get(...)`;
`none` models an absent key (the `.get` default is applied at the read site). -/
structure Metas where
  ganhoPesoMin : Option ℚ := none
  ganhoPesoMax : Option ℚ := none
  ganhoFmMax : Option ℚ := none
  bfMax : Option ℚ := none
  perdaPesoMin : Option ℚ := none
  perdaPesoMax : Option ℚ := none
  perdaLbmMax : Option ℚ := none
  deriving DecidableEq, Repr

-- ───────────────────────── weekly evaluator ─────────────────────────

/-- One entry of `resultado["ajustes"]` (its interpolated `problema` message is
not modelled; the fixed fields are). -/
structure Ajuste where
  objetivo : String
  acao : String
  deltaCalorias : ℤ
  prioridade : ℤ
  deriving DecidableEq, Repr

/-- One entry of a conflict's `opcoes` list. -/
structure Opcao where
  label : String
  descricao : String
  deltaCalorias : ℤ
  deriving DecidableEq, Repr

/-- One entry of `resultado["conflitos"]`. -/
structure Conflito where
  descricao : String
  opcoes : List Opcao
  deriving DecidableEq, Repr

/-- The result dict of `avaliar_resultados_semana`; optional keys are `Option`. -/
structure AvaliacaoResultado where
  deltaPeso : ℚ := 0
  deltaLbm : ℚ := 0
  deltaFm : ℚ := 0
  deltaBf : ℚ := 0
  ajustes : List Ajuste := []
  conflitos : List Conflito := []
  status : String := "ok"
  msg : Option String := none
  deriving DecidableEq, Repr

/-- `round(p_fim - p_ini, 2)` over the last 7 records. -/
def deltaPesoDe (df : List Registro) : ℚ := roundTo (pesoDoFim df 1 - pesoDoFim df 7) 2

/-- `round(bf_fim - bf_ini, 2)` over the last 7 records. -/
def deltaBfDe (df : List Registro) : ℚ := roundTo (bfDoFim df 1 - bfDoFim df 7) 2

/-- Lean mass from weight and body-fat%, `p * (1 - bf/100)`. -/
def lbmDe (p bf : ℚ) : ℚ := p * (1 - bf / 100)

/-- Fat mass from weight and body-fat%, `p * (bf/100)`. -/
def fmDe (p bf : ℚ) : ℚ := p * (bf / 100)

/-- `round(lbm_fim - lbm_ini, 2)` over the last 7 records. -/
def deltaLbmDe (df : List Registro) : ℚ :=
  roundTo (lbmDe (pesoDoFim df 1) (bfDoFim df 1) - lbmDe (pesoDoFim df 7) (bfDoFim df 7)) 2

/-- `round(fm_fim - fm_ini, 2)` over the last 7 records. -/
def deltaFmDe (df : List Registro) : ℚ :=
  roundTo (fmDe (pesoDoFim df 1) (bfDoFim df 1) - fmDe (pesoDoFim df 7) (bfDoFim df 7)) 2

/-- The adjustment list built by the Bulking / Cutting blocks of
`avaliar_resultados_semana`, in source order. -/
def ajustesDe (deltaPeso deltaLbm deltaFm bfFim : ℚ) (metas : Metas) (fase : String) :
    List Ajuste :=
  if fase = "Bulking" then
    (if deltaPeso < metas.ganhoPesoMin.getD 0 then
      [{ objetivo := "Ganho de Massa", acao := "Aumentar calorias +200kcal/dia",
         deltaCalorias := 200, prioridade := 2 }]
     else if metas.ganhoPesoMax.getD 99 < deltaPeso then
      [{ objetivo := "Controle de Gordura", acao := "Reduzir calorias -200kcal/dia",
         deltaCalorias := -200, prioridade := 1 }]
     else []) ++
    (if metas.ganhoFmMax.getD 99 < deltaFm then
      [{ objetivo := "Controle de Gordura", acao := "Reduzir calorias -150kcal/dia",
         deltaCalorias := -150, prioridade := 1 }]
     else []) ++
    (if metas.bfMax.getD 99 < bfFim then
      [{ objetivo := "BF% Crítico", acao := "Mini-cut de 2 semanas",
         deltaCalorias := -400, prioridade := 0 }]
     else [])
  else if fase = "Cutting" ∨ fase = "Pre-Contest (Cutting)" then
    (if -(metas.perdaPesoMin.getD 0) < deltaPeso then
      [{ objetivo := "Taxa de Perda", acao := "Aumentar déficit -200kcal/dia ou +cardio 20min",
         deltaCalorias := -200, prioridade := 2 }]
     else if deltaPeso < -(metas.perdaPesoMax.getD 99) then
      [{ objetivo := "Retenção de LBM", acao := "Reduzir déficit +200kcal/dia",
         deltaCalorias := 200, prioridade := 1 }]
     else []) ++
    (if deltaLbm < -(metas.perdaLbmMax.getD 99) then
      [{ objetivo := "Preservação de LBM",
         acao := "Aumentar proteína +0.3g/kg e reduzir déficit +150kcal",
         deltaCalorias := 150, prioridade := 0 }]
     else [])
  else []

/-- The adjustment list of the week, from the record series. -/
def ajustesGerados (df : List Registro) (metas : Metas) (fase : String) : List Ajuste :=
  ajustesDe (deltaPesoDe df) (deltaLbmDe df) (deltaFmDe df) (bfDoFim df 1) metas fase

/-- The Bulking conflict entry (three resolution options). -/
def conflitoBulking : Conflito :=
  { descricao := "⚠️ **CONFLITO MULTI-OBJETIVO:** O ganho de peso está abaixo do alvo (sugere +calorias), mas o ganho de gordura/BF% está acima do limite (sugere -calorias). Escolha uma prioridade:",
    opcoes :=
      [{ label := "🏋️ Priorizar Ganho de Massa",
         descricao := "+200kcal/dia — aceita mais gordura no curto prazo", deltaCalorias := 200 },
       { label := "⚖️ Priorizar Controle de Gordura",
         descricao := "-150kcal/dia — crescimento mais lento, menos gordura", deltaCalorias := -150 },
       { label := "✂️ Mini-cut 2 semanas",
         descricao := "Pausa no bulking para resetar BF%, depois retoma com melhor partição",
         deltaCalorias := -500 }] }

/-- The Cutting conflict entry (two resolution options). -/
def conflitoCutting : Conflito :=
  { descricao := "⚠️ **CONFLITO MULTI-OBJETIVO:** A taxa de perda de peso está baixa (sugere mais déficit), mas a perda de LBM está acima do tolerável (sugere menos déficit). Escolha uma prioridade:",
    opcoes :=
      [{ label := "🔥 Priorizar Perda de Gordura",
         descricao := "-200kcal/dia — aceita alguma perda de LBM", deltaCalorias := -200 },
       { label := "💪 Priorizar Preservação de LBM",
         descricao := "+150kcal/dia — perda mais lenta mas preserva músculo", deltaCalorias := 150 }] }

/-- `any(a["delta_calorias"] > 0 for a in ajustes)`. -/
def temSubirDe (df : List Registro) (metas : Metas) (fase : String) : Bool :=
  (ajustesGerados df metas fase).any fun a => decide (0 < a.deltaCalorias)

/-- `any(a["delta_calorias"] < 0 for a in ajustes)`. -/
def temDescerDe (df : List Registro) (metas : Metas) (fase : String) : Bool :=
  (ajustesGerados df metas fase).any fun a => decide (a.deltaCalorias < 0)

/-- `resultado["conflitos"]` after conflict detection. -/
def conflitosDe (df : List Registro) (metas : Metas) (fase : String) : List Conflito :=
  if temSubirDe df metas fase && temDescerDe df metas fase then
    [if fase = "Bulking" then conflitoBulking else conflitoCutting]
  else []

/-- Stable insertion of one adjustment, keeping earlier equal-priority entries first. -/
def insereAjuste (a : Ajuste) : List Ajuste → List Ajuste
  | [] => [a]
  | b :: t => if b.prioridade ≤ a.prioridade then b :: insereAjuste a t else a :: b :: t

/-- `list.sort(key=lambda x: x.get("prioridade", 99))` — Python's stable ascending sort. -/
def ordenarAjustes (l : List Ajuste) : List Ajuste :=
  l.foldl (fun acc a => insereAjuste a acc) []

/-- `avaliar_resultados_semana(df_historico, metas, fase)`. -/
def avaliar_resultados_semana (df : List Registro) (metas : Metas) (fase : String) :
    AvaliacaoResultado :=
  if df.length < 7 then
    { status := "insuficiente", msg := some ("Mínimo 7 registros para avaliação semanal.") }
  else if ordenarAjustes (ajustesGerados df metas fase) = [] ∧ conflitosDe df metas fase = [] then
    { deltaPeso := deltaPesoDe df, deltaLbm := deltaLbmDe df, deltaFm := deltaFmDe df,
      deltaBf := deltaBfDe df, ajustes := [], conflitos := [], status := "on_track",
      msg := some ("✅ Dentro das metas. Manter protocolo atual.") }
  else
    { deltaPeso := deltaPesoDe df, deltaLbm := deltaLbmDe df, deltaFm := deltaFmDe df,
      deltaBf := deltaBfDe df,
      ajustes := ordenarAjustes (ajustesGerados df metas fase),
      conflitos := conflitosDe df metas fase,
      status := if temSubirDe df metas fase && temDescerDe df metas fase then "conflito" else "ok",
      msg := none }

-- ───────────────────────── phase & timeline engine ─────────────────────────

/-- One row of the timeline DataFrame; `ini`/`fim` are the source's
`Inicio`/`Fim` columns as day numbers. -/
structure FaseSpan where
  fase : String
  ini : ℤ
  fim : ℤ
  deriving DecidableEq, Repr

/-- The `flags` dict of `sugerir_fase_e_timeline`; `none` models an absent key. -/
structure FaseFlags where
  taxaPerdaPeso : Option ℚ := none
  platoMetabolico : Option Bool := none
  deriving DecidableEq, Repr

/-- The loss-rate formula `((p_ini - p_fim) / p_ini) * 100 / 2`. -/
def taxaPerda (pIni pFim : ℚ) : ℚ := ((pIni - pFim) / pIni) * 100 / 2

/-- The flags computed by `sugerir_fase_e_timeline`: only present with at least
14 records; the plateau boolean uses the unrounded rate, the stored rate is
rounded to 3 decimals. -/
def flagsDe (df : List Registro) : FaseFlags :=
  if 14 ≤ df.length then
    { taxaPerdaPeso := some (roundTo (taxaPerda (pesoDoFim df 14) (pesoDoFim df 1)) 3),
      platoMetabolico := some (decide (taxaPerda (pesoDoFim df 14) (pesoDoFim df 1) < 1 / 2) &&
        decide (-(1 / 10) < taxaPerda (pesoDoFim df 14) (pesoDoFim df 1))) }
  else { taxaPerdaPeso := none, platoMetabolico := none }

/-- Run-length encoding of the historical phase labels into `Histórico:` spans;
`start`/`cur` carry the open span, closed at `dataAtual`. -/
def rleSpans (start : ℤ) (cur : String) (dataAtual : ℤ) : List (String × ℤ) → List FaseSpan
  | [] => [{ fase := "Histórico: " ++ cur, ini := start, fim := dataAtual }]
  | (f, d) :: rest =>
    if f ≠ cur then { fase := "Histórico: " ++ cur, ini := start, fim := d } ::
      rleSpans d f dataAtual rest
    else rleSpans start cur dataAtual rest

/-- The historical part of the timeline (`dropna` on the phase column, then RLE). -/
def historicoSpans (df : List Registro) (dataAtual : ℤ) : List FaseSpan :=
  match df.filter (fun r => r.faseHistorica.isSome) with
  | [] => []
  | r :: rest =>
    rleSpans r.data (r.faseHistorica.getD "") dataAtual
      (rest.map fun x => (x.faseHistorica.getD "", x.data))

/-- The sex-dependent body-fat ceiling: 15% male, 22% otherwise. -/
def limiteBfDe (sexo : String) : ℚ := if sexo = "Masculino" then 15 else 22

/-- Label of the open-ended off-phase window. -/
def faseOffDe (bf : ℚ) (sexo : String) : String :=
  if bf < limiteBfDe sexo then "Bulking" else "Recomposição Corporal"

/-- `sugerir_fase_e_timeline(data_atual, data_competicao, bf_atual, sexo, df)`;
dates are day numbers, `inicio_peak = dC - 7`, `inicio_cut = dC - 7 - 112`. -/
def sugerir_fase_e_timeline (dA dC : ℤ) (bf : ℚ) (sexo : String) (df : List Registro) :
    String × List FaseSpan × FaseFlags :=
  if dC - dA ≤ 0 then
    ("Pós-Campeonato / Transição",
     historicoSpans df dA ++
       [{ fase := "Projeção: Pós-Campeonato / Transição", ini := dA, fim := dA + 30 }],
     flagsDe df)
  else if dA < dC - 7 - 112 then
    (faseOffDe bf sexo,
     historicoSpans df dA ++
       [{ fase := "Projeção: " ++ faseOffDe bf sexo, ini := dA, fim := dC - 7 - 112 },
        { fase := "Projeção: Cutting", ini := dC - 7 - 112, fim := dC - 7 },
        { fase := "Projeção: Peak Week", ini := dC - 7, fim := dC }],
     flagsDe df)
  else if dA < dC - 7 then
    ("Cutting",
     historicoSpans df dA ++
       [{ fase := "Projeção: Cutting", ini := dA, fim := dC - 7 },
        { fase := "Projeção: Peak Week", ini := dC - 7, fim := dC }],
     flagsDe df)
  else
    ("Peak Week",
     historicoSpans df dA ++ [{ fase := "Projeção: Peak Week", ini := dA, fim := dC }],
     flagsDe df)

-- ───────────────────────── adaptive nutrition engine ─────────────────────────

/-- One row of the weekly macro table. -/
structure PlanoDia where
  dia : String
  estrategia : String
  calorias : ℤ
  carb : ℤ
  prot : ℤ
  gord : ℤ
  deriving DecidableEq, Repr

/-- Result of `calcular_macros_semana`: the 7-row plan plus the alert keys a
claim needs (`motivo` and the always-present `get_base` banner are interpolated
strings, not modelled). -/
structure MacrosSemana where
  plano : List PlanoDia
  alertaPlato : Bool := false
  alertaTermogenese : Option ℤ := none
  deriving DecidableEq, Repr

/-- The maintenance target `get` used by `calcular_macros_semana`. -/
def getDe (a : AtletaMetrics) : ℚ := calcular_get (calcular_tmb_katch_mcardle a.peso a.bfAtual)

/-- `semanas_deficit`: counts ALL `Cutting`-labelled history rows (not only the
trailing consecutive ones), in whole weeks, and only when the suggested phase
is a cutting phase. -/
def semanasDeficitDe (a : AtletaMetrics) (df : List Registro) : ℕ :=
  if df ≠ [] ∧ (a.faseSugerida = "Cutting" ∨ a.faseSugerida = "Pre-Contest (Cutting)") then
    (df.filter fun r => decide (r.faseHistorica = some ("Cutting"))).length / 7
  else 0

/-- Modelled from the spec: "count consecutive weeks spent in a deficit phase
from the historical record" — the trailing consecutive run of `Cutting` rows in
whole weeks.  This definition follows the spec's words; the source
(`semanasDeficitDe`) counts all cutting rows instead. -/
def semanasDeficitConsecutivasSpec (df : List Registro) : ℕ :=
  (df.reverse.takeWhile fun r => decide (r.faseHistorica = some ("Cutting"))).length / 7

/-- `cal_base` of the Cutting branch: `get - 500`, minus 200 more after 7
stagnation days, then the adaptive-thermogenesis correction. -/
def cuttingCalBase (a : AtletaMetrics) (semanas : ℕ) : ℚ :=
  aplicar_termogenese_adaptativa
    (if (7 : ℤ) ≤ a.estagnadoDias then getDe a - 500 - 200 else getDe a - 500) semanas

/-- The weekday labels of the plan. -/
def diasSemana : List String :=
  ["Segunda", "Terça", "Quarta", "Quinta", "Sexta", "Sábado", "Domingo"]

/-- `calcular_macros_semana(atleta, df_historico, flags)` — note the `flags`
argument is never read by the source body. -/
def calcular_macros_semana (a : AtletaMetrics) (df : List Registro) (_flags : FaseFlags) :
    MacrosSemana :=
  if a.faseSugerida = "Bulking" then
    let calorias := getDe a + (if a.usoPeds then 500 else 300)
    let prot := a.lbm * (if a.usoPeds then 14 / 5 else 11 / 5)
    let gord := a.peso * 1
    let carb := max 50 ((calorias - prot * 4 - gord * 9) / 4)
    { plano := diasSemana.map fun d =>
        { dia := d, estrategia := "Superávit Base", calorias := round calorias,
          carb := round carb, prot := round prot, gord := round gord } }
  else if a.faseSugerida = "Cutting" ∨ a.faseSugerida = "Pre-Contest (Cutting)" then
    let calBase := cuttingCalBase a (semanasDeficitDe a df)
    let prot := a.lbm * (31 / 10)
    let gord := a.peso * (7 / 10)
    let carbLow := max 30 ((calBase - prot * 4 - gord * 9) / 4)
    let carbRef := carbLow + (getDe a - calBase) / 4
    { plano :=
        [{ dia := "Segunda", estrategia := "Low Carb (Déficit)", calorias := round calBase,
           carb := round carbLow, prot := round prot, gord := round gord },
         { dia := "Terça", estrategia := "Low Carb (Déficit)", calorias := round calBase,
           carb := round carbLow, prot := round prot, gord := round gord },
         { dia := "Quarta", estrategia := "Low Carb (Déficit)", calorias := round calBase,
           carb := round carbLow, prot := round prot, gord := round gord },
         { dia := "Quinta", estrategia := "Low Carb (Déficit)", calorias := round calBase,
           carb := round carbLow, prot := round prot, gord := round gord },
         { dia := "Sexta", estrategia := "Low Carb (Déficit)", calorias := round calBase,
           carb := round carbLow, prot := round prot, gord := round gord },
         { dia := "Sábado", estrategia := "Refeed (Manutenção)", calorias := round (getDe a),
           carb := round carbRef, prot := round prot, gord := round gord },
         { dia := "Domingo", estrategia := "Refeed (Manutenção)", calorias := round (getDe a),
           carb := round carbRef, prot := round prot, gord := round gord }],
      alertaPlato := decide ((7 : ℤ) ≤ a.estagnadoDias),
      alertaTermogenese :=
        if 4 < semanasDeficitDe a df then
          some ((min ((semanasDeficitDe a df - 4) * 15) 200 : ℕ) : ℤ)
        else none }
  else if a.faseSugerida = "Peak Week" then
    let protD := a.peso * 3
    let gordD := a.peso * (4 / 5)
    let carbD : ℚ := 50
    let calD := protD * 4 + gordD * 9 + carbD * 4
    let protU := a.peso * 2
    let gordU := a.peso * (2 / 5)
    let carbU := a.peso * 8
    let calU := protU * 4 + gordU * 9 + carbU * 4
    let carbM := max 0 ((getDe a - protD * 4 - gordU * 9) / 4)
    { plano :=
        [{ dia := "Segunda", estrategia := "Depleção Extrema", calorias := round calD,
           carb := round carbD, prot := round protD, gord := round gordD },
         { dia := "Terça", estrategia := "Depleção Extrema", calorias := round calD,
           carb := round carbD, prot := round protD, gord := round gordD },
         { dia := "Quarta", estrategia := "Depleção Extrema", calorias := round calD,
           carb := round carbD, prot := round protD, gord := round gordD },
         { dia := "Quinta", estrategia := "Carb-Up (Loading)", calorias := round calU,
           carb := round carbU, prot := round protU, gord := round gordU },
         { dia := "Sexta", estrategia := "Carb-Up (Loading)", calorias := round calU,
           carb := round carbU, prot := round protU, gord := round gordU },
         { dia := "Sábado", estrategia := "Spillover Check", calorias := round (getDe a),
           carb := round carbM, prot := round protD, gord := round gordU },
         { dia := "Domingo", estrategia := "Dia do Show", calorias := round (getDe a),
           carb := round carbM, prot := round protD, gord := round gordU }] }
  else
    let calorias := getDe a - 200
    let prot := a.lbm * (5 / 2)
    let gord := a.peso * (9 / 10)
    let carb := max 30 ((calorias - prot * 4 - gord * 9) / 4)
    { plano := diasSemana.map fun d =>
        { dia := d, estrategia := "Leve Déficit", calorias := round calorias,
          carb := round carb, prot := round prot, gord := round gord } }

-- ───────────────────────── ACWR extractor ─────────────────────────

/-- `pd.to_numeric(df["Carga_Treino"]).fillna(0)`: missing loads become 0. -/
def cargasDe (df : List Registro) : List ℚ := df.map fun r => r.carga.getD 0

/-- Acute mean: last 7 records' loads. -/
def agudaDe (df : List Registro) : ℚ := media (ultimos (cargasDe df) 7)

/-- Chronic mean: last `min(28, len(df))` records' loads. -/
def cronicaDe (df : List Registro) : ℚ :=
  media (ultimos (cargasDe df) (min 28 (cargasDe df).length))

/-- `calcular_acwr(df_historico)`. -/
def calcular_acwr (df : List Registro) : Option ℚ × String :=
  if df.length < 7 then (none, "Dados insuficientes (mín. 7 registros).")
  else if cronicaDe df = 0 then (none, "Carga crônica zerada.")
  else
    let acwr := roundTo (agudaDe df / cronicaDe df) 3
    (some acwr,
     if acwr < 4 / 5 then "🔵 Subtreino — aumente volume gradualmente"
     else if acwr ≤ 13 / 10 then "🟢 Zona ótima (0.8–1.3)"
     else if acwr ≤ 3 / 2 then "🟡 Atenção — monitore fadiga"
     else "🔴 Alto risco — reduza volume imediatamente")

/-- Uniform scaling of every recorded load by `c` (missing stays missing). -/
def escalar (df : List Registro) (c : ℚ) : List Registro :=
  df.map fun r => { r with carga := r.carga.map (· * c) }

/-- Replacing every missing load by an explicit recorded 0. -/
def preencher (df : List Registro) : List Registro :=
  df.map fun r => { r with carga := some (r.carga.getD 0) }

-- ───────────────────────── recovery scorer ─────────────────────────

/-- HRV drop vs baseline, guarded against a zero/negative baseline
(`if atleta.vfc_base > 0 else 0`). -/
def quedaVfc (a : AtletaMetrics) : ℚ :=
  if 0 < a.vfcBase then (a.vfcBase - a.vfcAtual) / a.vfcBase * 100 else 0

/-- The HRV clause of the metrics panel: the source renders either
`f"Queda {q:.1f}%"` or `f"Aumento {abs(q):.1f}%"` — there is no third form. -/
inductive TextoVfc where
  | queda (pct : ℚ)
  | aumento (pct : ℚ)
  deriving DecidableEq, Repr

/-- `txt_vfc` of `prescrever_treino_do_dia`. -/
def textoVfc (a : AtletaMetrics) : TextoVfc :=
  if 0 < quedaVfc a then .queda (quedaVfc a) else .aumento |quedaVfc a|

/-- Fatigue points from the HRV drop: ≥20% → 3, ≥10% → 2. -/
def pontosVfc (a : AtletaMetrics) : ℕ :=
  if 20 ≤ quedaVfc a then 3 else if 10 ≤ quedaVfc a then 2 else 0

/-- Fatigue points from the sleep score: <50 → 2, <70 → 1. -/
def pontosSleep (a : AtletaMetrics) : ℕ :=
  if a.sleepScore < 50 then 2 else if a.sleepScore < 70 then 1 else 0

/-- Fatigue points from recovery time: ≥48h → 2, ≥36h → 1. -/
def pontosRecovery (a : AtletaMetrics) : ℕ :=
  if 48 ≤ a.recoveryTime then 2 else if 36 ≤ a.recoveryTime then 1 else 0

/-- Fatigue point from ACWR (`if acwr_val and acwr_val > 1.5` — Python
truthiness keeps a `0.0` value falsy). -/
def pontosAcwr : Option ℚ → ℕ
  | some v => if v ≠ 0 ∧ 3 / 2 < v then 1 else 0
  | none => 0

/-- Fatigue point from the HRV coefficient of variation (`> 10`). -/
def pontosCv : Option ℚ → ℕ
  | some v => if v ≠ 0 ∧ 10 < v then 1 else 0
  | none => 0

/-- The 0–10 fatigue score of `prescrever_treino_do_dia`. -/
def pontosFadiga (a : AtletaMetrics) (acwrVal cvVal : Option ℚ) : ℕ :=
  pontosVfc a + pontosSleep a + pontosRecovery a + pontosAcwr acwrVal + pontosCv cvVal

/-- The decision of `prescrever_treino_do_dia` (status, action, score, and the
panel's HRV clause).  `acwrVal`/`cvVal` are the values of `calcular_acwr` and
`calcular_cv_vfc` on the history; the latter involves a real-valued standard
deviation and is taken as an input here. -/
structure Prescricao where
  status : String
  acao : String
  pontos : ℕ
  painelVfc : TextoVfc
  deriving DecidableEq, Repr

/-- `prescrever_treino_do_dia`: ≥5 points → total rest, 3–4 → zone-2 cardio,
else resistance training. -/
def prescrever_treino_do_dia (a : AtletaMetrics) (acwrVal cvVal : Option ℚ) : Prescricao :=
  if 5 ≤ pontosFadiga a acwrVal cvVal then
    { status := "🔴 Fadiga Severa", acao := "DESCANSO TOTAL",
      pontos := pontosFadiga a acwrVal cvVal, painelVfc := textoVfc a }
  else if 3 ≤ pontosFadiga a acwrVal cvVal then
    { status := "🟡 Recuperação Incompleta", acao := "CARDIO ZONA 2 — 30-45min",
      pontos := pontosFadiga a acwrVal cvVal, painelVfc := textoVfc a }
  else
    { status := "🟢 Totalmente Recuperado", acao := "TREINO DE MUSCULAÇÃO",
      pontos := pontosFadiga a acwrVal cvVal, painelVfc := textoVfc a }

-- ───────────────────────── concrete inputs used by witnesses ─────────────────────────

/-- A plain weight/body-fat record. -/
def reg (d : ℤ) (p bf : ℚ) : Registro := { data := d, peso := p, bfAtual := bf }

/-- A record carrying only a training load. -/
def regCarga (d : ℤ) (c : Option ℚ) : Registro := { data := d, carga := c }

/-- A baseline athlete snapshot used by several concrete evaluations. -/
def atletaBase : AtletaMetrics :=
  { categoriaAlvo := "Classic Physique", peso := 80, bfAtual := 10, bfAlvo := 5, idade := 30,
    vfcBase := 60, vfcAtual := 55, sleepScore := 80, recoveryTime := 12, fcRepouso := 55,
    cargaTreino := 500, faseSugerida := "Cutting", usoPeds := false, estagnadoDias := 0,
    dataCompeticao := 200, anosTreino := 5 }

-- ───────────────────────── helper lemmas ─────────────────────────

theorem cargasDe_escalar (df : List Registro) (c : ℚ) :
    cargasDe (escalar df c) = (cargasDe df).map (· * c) := by
  simp only [cargasDe, escalar, List.map_map]
  refine List.map_congr_left fun r _ => ?_
  cases h : r.carga <;> simp [h]

theorem cargasDe_preencher (df : List Registro) :
    cargasDe (preencher df) = cargasDe df := by
  simp only [cargasDe, preencher, List.map_map]
  refine List.map_congr_left fun r _ => ?_
  cases h : r.carga <;> simp [h]

theorem ultimos_map_mul (l : List ℚ) (c : ℚ) (n : ℕ) :
    ultimos (l.map (· * c)) n = (ultimos l n).map (· * c) := by
  simp [ultimos, List.map_drop]

theorem media_map_mul (l : List ℚ) (c : ℚ) :
    media (l.map (· * c)) = media l * c := by
  simp only [media, List.length_map]
  rw [show (l.map (· * c)).sum = l.sum * c by
    simpa using List.sum_map_mul_right l id c]
  rw [mul_div_right_comm]

theorem agudaDe_escalar (df : List Registro) (c : ℚ) :
    agudaDe (escalar df c) = agudaDe df * c := by
  rw [agudaDe, cargasDe_escalar, ultimos_map_mul, media_map_mul, agudaDe]

theorem cronicaDe_escalar (df : List Registro) (c : ℚ) :
    cronicaDe (escalar df c) = cronicaDe df * c := by
  rw [cronicaDe, cargasDe_escalar, List.length_map, ultimos_map_mul, media_map_mul, cronicaDe]

theorem length_escalar (df : List Registro) (c : ℚ) :
    (escalar df c).length = df.length := List.length_map _ _

theorem acwr_preencher (df : List Registro) :
    calcular_acwr (preencher df) = calcular_acwr df := by
  have h1 : (preencher df).length = df.length := List.length_map _ _
  simp only [calcular_acwr, agudaDe, cronicaDe, cargasDe_preencher, h1]

theorem acwr_escalar (df : List Registro) (c : ℚ) (hc : 0 < c) :
    calcular_acwr (escalar df c) = calcular_acwr df := by
  have hc0 : c ≠ 0 := ne_of_gt hc
  by_cases hlen : df.length < 7
  · simp only [calcular_acwr, length_escalar, if_pos hlen]
  · by_cases h0 : cronicaDe df = 0
    · have h0' : cronicaDe (escalar df c) = 0 := by rw [cronicaDe_escalar, h0, zero_mul]
      simp only [calcular_acwr, length_escalar, if_neg hlen, if_pos h0, if_pos h0']
    · have h0' : cronicaDe df * c ≠ 0 := mul_ne_zero h0 hc0
      simp only [calcular_acwr, length_escalar, if_neg hlen, cronicaDe_escalar, agudaDe_escalar,
        if_neg h0, if_neg h0', mul_div_mul_right _ _ hc0]

-- ───────────────────────── claim theorems ─────────────────────────

/-- Claim C10: `calcular_acwr` is invariant under uniform positive scaling of
all load values, and returns exactly `1.0` whenever the acute 7-record mean
equals the chronic-window mean (under the function's own definedness guards:
at least 7 records and non-zero chronic mean). -/
theorem C10_acwr_scale_invariance :
    (∀ (df : List Registro) (c : ℚ), 0 < c → calcular_acwr (escalar df c) = calcular_acwr df) ∧
    (∀ df : List Registro, 7 ≤ df.length → cronicaDe df ≠ 0 → agudaDe df = cronicaDe df →
      (calcular_acwr df).1 = some 1) := by
  constructor
  · exact acwr_escalar
  · intro df h7 h0 heq
    have hlen : ¬ df.length < 7 := by omega
    have hone : roundTo (agudaDe df / cronicaDe df) 3 = 1 := by
      rw [heq, div_self h0]
      norm_num [roundTo, round_eq]
    simp only [calcular_acwr, if_neg hlen, if_neg h0, hone]

/-- Seven identical loads of 15. -/
def dfC10 : List Registro :=
  [regCarga 0 (some 15), regCarga 1 (some 15), regCarga 2 (some 15), regCarga 3 (some 15),
   regCarga 4 (some 15), regCarga 5 (some 15), regCarga 6 (some 15)]

/-- Claim C10 witness: scaling the series by 2 leaves the ACWR untouched, and
the series with equal acute/chronic means gives exactly 1. -/
theorem C10_acwr_scale_invariance_witness :
    calcular_acwr (escalar dfC10 2) = calcular_acwr dfC10 ∧
    (calcular_acwr dfC10).1 = some 1 := by
  constructor
  · exact C10_acwr_scale_invariance.1 dfC10 2 (by norm_num)
  · refine C10_acwr_scale_invariance.2 dfC10 (by simp [dfC10]) ?_ ?_
    · simp [cronicaDe, cargasDe, dfC10, regCarga, ultimos, media]
      norm_num
    · simp [agudaDe, cronicaDe, cargasDe, dfC10, regCarga, ultimos, media]

theorem acwr_valor (df : List Registro) (h7 : 7 ≤ df.length) (h0 : cronicaDe df ≠ 0) :
    (calcular_acwr df).1 = some (roundTo (agudaDe df / cronicaDe df) 3) := by
  have hlen : ¬ df.length < 7 := by omega
  simp only [calcular_acwr, if_neg hlen, if_neg h0]

/-- Claim C9 amended: `calcular_acwr` coerces every missing (null) load to an
explicit 0 before averaging — the result over a series with missing loads is
identical to the result over the same series with 0 substituted — and `none`
is reported only for fewer than 7 records or a zero chronic mean (whenever at
least 7 records exist and the chronic mean is non-zero, a number is returned,
missing loads notwithstanding). -/
theorem C9_acwr_null_as_zero :
    (∀ df : List Registro, calcular_acwr (preencher df) = calcular_acwr df) ∧
    (∀ df : List Registro, df.length < 7 → (calcular_acwr df).1 = none) ∧
    (∀ df : List Registro, 7 ≤ df.length → cronicaDe df ≠ 0 →
      (calcular_acwr df).1 = some (roundTo (agudaDe df / cronicaDe df) 3)) := by
  refine ⟨acwr_preencher, ?_, acwr_valor⟩
  intro df h
  simp only [calcular_acwr, if_pos h]

/-- Eight records, one of them with an unrecorded (null) load. -/
def dfC9 : List Registro :=
  [regCarga 0 (some 42), regCarga 1 (some 14), regCarga 2 (some 14), regCarga 3 (some 14),
   regCarga 4 (some 14), regCarga 5 (some 14), regCarga 6 (some 14), regCarga 7 none]

/-- Claim C9 counterexample: the series `dfC9` has a missing load, yet the
extractor does not report `None` — it returns the number 0.762, exactly the
value obtained when the missing load enters both means as a zero (the result
coincides with the fully-zero-filled series). -/
theorem C9_counterexample :
    dfC9.any (fun r => r.carga.isNone) = true ∧
    (calcular_acwr dfC9).1 = some (381 / 500) ∧
    calcular_acwr dfC9 = calcular_acwr (preencher dfC9) := by
  refine ⟨by simp [dfC9, regCarga], ?_, (acwr_preencher dfC9).symm⟩
  have h : agudaDe dfC9 / cronicaDe dfC9 = 16 / 21 := by
    simp [agudaDe, cronicaDe, cargasDe, dfC9, regCarga, ultimos, media]
    norm_num
  have h0 : cronicaDe dfC9 ≠ 0 := by
    simp [cronicaDe, cargasDe, dfC9, regCarga, ultimos, media]
    norm_num
  rw [acwr_valor dfC9 (by simp [dfC9]) h0, h]
  norm_num [roundTo, round_eq]

/-- Eight fully-recorded loads: acute mean 10, chronic mean 12.5. -/
def dfC9w : List Registro :=
  [regCarga 0 (some 30), regCarga 1 (some 10), regCarga 2 (some 10), regCarga 3 (some 10),
   regCarga 4 (some 10), regCarga 5 (some 10), regCarga 6 (some 10), regCarga 7 (some 10)]

/-- A three-record series, below the ACWR data floor. -/
def dfC9s : List Registro := [regCarga 0 (some 10), regCarga 1 (some 10), regCarga 2 (some 10)]

/-- Claim C9 witness: on `dfC9w` (8 records, chronic mean 12.5 ≠ 0) the
extractor returns `0.8`; on a 3-record series it returns `none`. -/
theorem C9_acwr_null_as_zero_witness :
    (calcular_acwr dfC9w).1 = some (4 / 5) ∧ (calcular_acwr dfC9s).1 = none := by
  constructor
  · have h0 : cronicaDe dfC9w ≠ 0 := by
      simp [cronicaDe, cargasDe, dfC9w, regCarga, ultimos, media]
      norm_num
    rw [C9_acwr_null_as_zero.2.2 dfC9w (by simp [dfC9w]) h0]
    have h : agudaDe dfC9w / cronicaDe dfC9w = 4 / 5 := by
      simp [agudaDe, cronicaDe, cargasDe, dfC9w, regCarga, ultimos, media]
      norm_num
    rw [h]
    norm_num [roundTo, round_eq]
  · exact C9_acwr_null_as_zero.2.1 dfC9s (by simp [dfC9s])

/-- A snapshot whose baseline HRV is missing (stored as 0). -/
def atletaSemVfc : AtletaMetrics := { atletaBase with vfcBase := 0, vfcAtual := 45 }

/-- A snapshot with a genuinely measured, unchanged HRV. -/
def atletaVfcEstavel : AtletaMetrics := { atletaBase with vfcBase := 60, vfcAtual := 60 }

/-- Claim C8 counterexample: with a zero baseline HRV the drop contribution is
indeed 0 (no division), but the panel's HRV clause is `Aumento 0.0%` — exactly
the clause produced for an athlete whose HRV was genuinely measured and
unchanged — so the human-readable summary does NOT surface that HRV could not
be evaluated (the two situations are indistinguishable in the output, and the
clause type has no "unavailable" form at all). -/
theorem C8_counterexample :
    quedaVfc atletaSemVfc = 0 ∧
    textoVfc atletaSemVfc = TextoVfc.aumento 0 ∧
    textoVfc atletaSemVfc = textoVfc atletaVfcEstavel := by
  have h1 : quedaVfc atletaSemVfc = 0 := by
    simp [quedaVfc, atletaSemVfc, atletaBase]
  have h2 : quedaVfc atletaVfcEstavel = 0 := by
    simp [quedaVfc, atletaVfcEstavel, atletaBase]
  refine ⟨h1, ?_, ?_⟩ <;> simp [textoVfc, h1, h2]

/-- Claim C8 amended: for every snapshot whose baseline HRV is zero or missing
(non-positive), the recovery scorer raises no division error — the HRV-drop is
computed as 0 and contributes 0 fatigue points — but the metrics summary does
not surface that HRV could not be evaluated: its HRV clause is the ordinary
`Aumento 0.0%`, the same text produced for a measured, unchanged HRV. -/
theorem C8_hrv_sem_baseline (a : AtletaMetrics) (acwrVal cvVal : Option ℚ)
    (h : a.vfcBase ≤ 0) :
    quedaVfc a = 0 ∧ pontosVfc a = 0 ∧
    pontosFadiga a acwrVal cvVal =
      pontosSleep a + pontosRecovery a + pontosAcwr acwrVal + pontosCv cvVal ∧
    (prescrever_treino_do_dia a acwrVal cvVal).painelVfc = TextoVfc.aumento 0 := by
  have hq : quedaVfc a = 0 := by
    rw [quedaVfc, if_neg (by linarith)]
  have hp : pontosVfc a = 0 := by
    rw [pontosVfc, hq]
    norm_num
  have ht : textoVfc a = TextoVfc.aumento 0 := by
    simp [textoVfc, hq]
  refine ⟨hq, hp, ?_, ?_⟩
  · rw [pontosFadiga, hp, Nat.zero_add]
  · unfold prescrever_treino_do_dia
    split
    · simp [ht]
    · split <;> simp [ht]

/-- Claim C8 witness: the amended theorem applied at the zero-baseline
snapshot. -/
theorem C8_hrv_sem_baseline_witness :
    quedaVfc atletaSemVfc = 0 ∧ pontosVfc atletaSemVfc = 0 ∧
    (prescrever_treino_do_dia atletaSemVfc (some 2) (some 12)).painelVfc =
      TextoVfc.aumento 0 := by
  have h := C8_hrv_sem_baseline atletaSemVfc (some 2) (some 12)
    (by simp [atletaSemVfc, atletaBase])
  exact ⟨h.1, h.2.1, h.2.2.2⟩

/-- A record carrying only a historical phase label. -/
def regFase (d : ℤ) (f : String) : Registro := { data := d, faseHistorica := some f }

/-- 28 Cutting rows, then 28 Bulking rows, then 14 Cutting rows: only 2 trailing
consecutive Cutting weeks, but 6 Cutting weeks in total. -/
def dfMix : List Registro :=
  List.replicate 28 (regFase 0 "Cutting") ++ List.replicate 28 (regFase 0 "Bulking") ++
    List.replicate 14 (regFase 0 "Cutting")

/-- Claim C3 counterexample: on a history whose trailing consecutive run in
deficit is only 2 weeks (≤ 4, so the claim's "consecutive deficit weeks"
counter demands a 0 kcal correction), the source counts all 42 Cutting rows —
6 weeks — and reduces the Cutting calorie baseline by 30 kcal. -/
theorem C3_counterexample :
    semanasDeficitConsecutivasSpec dfMix = 2 ∧
    semanasDeficitDe atletaBase dfMix = 6 ∧
    cuttingCalBase atletaBase (semanasDeficitDe atletaBase dfMix) =
      cuttingCalBase atletaBase 0 - 30 := by
  have hsem : semanasDeficitDe atletaBase dfMix = 6 := by
    rw [semanasDeficitDe, if_pos ⟨by simp [dfMix], Or.inl rfl⟩]
    simp [dfMix, List.filter_append, List.filter_replicate, regFase]
  refine ⟨?_, hsem, ?_⟩
  · rw [semanasDeficitConsecutivasSpec]
    simp [dfMix, List.reverse_append, List.takeWhile_append, List.takeWhile_replicate, regFase]
  · rw [hsem]
    show aplicar_termogenese_adaptativa _ 6 = aplicar_termogenese_adaptativa _ 0 - 30
    simp [aplicar_termogenese_adaptativa]

/-- Claim C3 amended: the metabolic-adaptation correction subtracts exactly
`min((weeks-4)*15, 200)` kcal when `weeks > 4` and nothing for ≤ 4 weeks; the
correction commutes with the phase-specific deficit subtraction (so, although
the source applies it after `get - 500`, the result equals correcting the
baseline first); and `weeks` is the count of ALL `Cutting`-labelled history
rows divided by 7 — not necessarily consecutive — so 42 Cutting rows (6 weeks)
reduce the Cutting calorie baseline by exactly 30 kcal. -/
theorem C3_termogenese_adaptativa :
    (∀ (c : ℚ) (s : ℕ), s ≤ 4 → aplicar_termogenese_adaptativa c s = c) ∧
    (∀ (c : ℚ) (s : ℕ), 4 < s →
      aplicar_termogenese_adaptativa c s = c - ((min ((s - 4) * 15) 200 : ℕ) : ℚ)) ∧
    (∀ (c d : ℚ) (s : ℕ),
      aplicar_termogenese_adaptativa (c - d) s = aplicar_termogenese_adaptativa c s - d) ∧
    (∀ (a : AtletaMetrics) (df : List Registro), a.faseSugerida = "Cutting" →
      (df.filter fun r => decide (r.faseHistorica = some ("Cutting"))).length = 42 →
      semanasDeficitDe a df = 6 ∧
      cuttingCalBase a (semanasDeficitDe a df) = cuttingCalBase a 0 - 30) := by
  refine ⟨?_, ?_, ?_, ?_⟩
  · intro c s h
    rw [aplicar_termogenese_adaptativa, if_pos h]
  · intro c s h
    rw [aplicar_termogenese_adaptativa, if_neg (by omega)]
  · intro c d s
    unfold aplicar_termogenese_adaptativa
    split
    · rfl
    · ring
  · intro a df hfase hfiltro
    have hne : df ≠ [] := by
      intro h
      rw [h] at hfiltro
      simp at hfiltro
    have hsem : semanasDeficitDe a df = 6 := by
      rw [semanasDeficitDe, if_pos ⟨hne, Or.inl hfase⟩, hfiltro]
    refine ⟨hsem, ?_⟩
    rw [hsem]
    show aplicar_termogenese_adaptativa _ 6 = aplicar_termogenese_adaptativa _ 0 - 30
    simp [aplicar_termogenese_adaptativa]

/-- 42 consecutive Cutting rows — six full weeks in deficit. -/
def df42 : List Registro := List.replicate 42 (regFase 0 "Cutting")

/-- Claim C3 witness: ≤4 weeks leave 1000 kcal untouched, 6 weeks subtract
exactly 30, the correction commutes with a 300 kcal deficit, and 42 Cutting
rows give 6 weeks and a baseline lowered by 30. -/
theorem C3_termogenese_adaptativa_witness :
    aplicar_termogenese_adaptativa 1000 3 = 1000 ∧
    aplicar_termogenese_adaptativa 1000 6 = 970 ∧
    aplicar_termogenese_adaptativa (1000 - 300) 6 = aplicar_termogenese_adaptativa 1000 6 - 300 ∧
    semanasDeficitDe atletaBase df42 = 6 ∧
    cuttingCalBase atletaBase (semanasDeficitDe atletaBase df42) =
      cuttingCalBase atletaBase 0 - 30 := by
  have hfiltro : (df42.filter fun r => decide (r.faseHistorica = some ("Cutting"))).length = 42 := by
    simp [df42, List.filter_replicate, regFase]
  have h4 := C3_termogenese_adaptativa.2.2.2 atletaBase df42 rfl hfiltro
  refine ⟨C3_termogenese_adaptativa.1 1000 3 (by norm_num), ?_,
    C3_termogenese_adaptativa.2.2.1 1000 300 6, h4.1, h4.2⟩
  rw [C3_termogenese_adaptativa.2.1 1000 6 (by norm_num)]
  norm_num

theorem flags_sugerir (dA dC : ℤ) (bf : ℚ) (sexo : String) (df : List Registro) :
    (sugerir_fase_e_timeline dA dC bf sexo df).2.2 = flagsDe df := by
  unfold sugerir_fase_e_timeline
  split
  · rfl
  · split
    · rfl
    · split <;> rfl

/-- Claim C2 counterexample: with the competition exactly 112+7 = 119 days away
and body-fat below the male ceiling, the engine is already in `Cutting` with a
2-span projection — not in `Bulking` with 3 spans as claimed (the strict
`<` on the cut boundary puts day 119 inside the contest-prep window). -/
theorem C2_counterexample :
    (sugerir_fase_e_timeline 0 119 10 "Masculino" []).1 = "Cutting" ∧
    (sugerir_fase_e_timeline 0 119 10 "Masculino" []).1 ≠ "Bulking" ∧
    (sugerir_fase_e_timeline 0 119 10 "Masculino" []).2.1.length = 2 := by
  have h : sugerir_fase_e_timeline 0 119 10 "Masculino" [] =
      ("Cutting",
       [{ fase := "Projeção: Cutting", ini := 0, fim := 112 },
        { fase := "Projeção: Peak Week", ini := 112, fim := 119 }],
       flagsDe []) := by
    unfold sugerir_fase_e_timeline
    rw [if_neg (by norm_num), if_neg (by norm_num), if_pos (by norm_num)]
    simp [historicoSpans]
  rw [h]
  refine ⟨rfl, by simp, rfl⟩

/-- Claim C2 amended: with the competition strictly more than 119 days away
(at least 120) and current body-fat% below the sex-dependent ceiling (15%
male / 22% otherwise), the current phase is `Bulking` and, with no historical
phase records, the timeline consists of exactly the 3 projected spans
(off-phase, Cutting, Peak Week); at exactly 119 days the phase is already
`Cutting`. -/
theorem C2_fase_timeline_bulking (dA dC : ℤ) (bf : ℚ) (sexo : String)
    (h : 120 ≤ dC - dA) (hbf : bf < limiteBfDe sexo) :
    (sugerir_fase_e_timeline dA dC bf sexo []).1 = "Bulking" ∧
    (sugerir_fase_e_timeline dA dC bf sexo []).2.1.length = 3 := by
  have hoff : faseOffDe bf sexo = "Bulking" := by
    rw [faseOffDe, if_pos hbf]
  unfold sugerir_fase_e_timeline
  rw [if_neg (by omega), if_pos (by omega)]
  rw [show historicoSpans [] dA = [] from rfl]
  exact ⟨hoff, rfl⟩

/-- Claim C2 witness: today 0, competition day 120, body-fat 10% male. -/
theorem C2_fase_timeline_bulking_witness :
    (sugerir_fase_e_timeline 0 120 10 "Masculino" []).1 = "Bulking" ∧
    (sugerir_fase_e_timeline 0 120 10 "Masculino" []).2.1.length = 3 :=
  C2_fase_timeline_bulking 0 120 10 "Masculino" (by norm_num)
    (by rw [limiteBfDe, if_pos rfl]; norm_num)

/-- Seven weight records — below the 14-record floor of the rate computation. -/
def dfIns5 : List Registro :=
  [reg 0 100 10, reg 1 99 10, reg 2 98 10, reg 3 97 10, reg 4 96 10, reg 5 96 10, reg 6 95 10]

/-- Fourteen records whose loss rate is exactly −0.1 %/week (500 → 501). -/
def dfLimite : List Registro :=
  [reg 1 500 10, reg 2 500 10, reg 3 500 10, reg 4 500 10, reg 5 500 10, reg 6 500 10,
   reg 7 500 10, reg 8 500 10, reg 9 500 10, reg 10 500 10, reg 11 500 10, reg 12 500 10,
   reg 13 500 10, reg 14 501 10]

/-- Claim C5 counterexample: (i) with only 7 records (loss rate undefined) the
flags dict contains NO plateau key at all — `none`, not the claimed boolean
`False`; (ii) at a loss rate of exactly −0.1 %/week ("not below −0.1", which
the claim says must still trigger the plateau flag) the source's strict
`taxa > -0.1` yields `False`. -/
theorem C5_counterexample :
    (sugerir_fase_e_timeline 20 300 10 "Masculino" dfIns5).2.2.platoMetabolico = none ∧
    taxaPerda 500 501 = -(1 / 10) ∧
    (sugerir_fase_e_timeline 20 300 10 "Masculino" dfLimite).2.2.platoMetabolico =
      some false := by
  have htaxa : taxaPerda 500 501 = -(1 / 10) := by norm_num [taxaPerda]
  refine ⟨?_, htaxa, ?_⟩
  · rw [flags_sugerir, flagsDe, if_neg (by simp [dfIns5])]
  · rw [flags_sugerir, flagsDe, if_pos (by simp [dfLimite])]
    have h14 : pesoDoFim dfLimite 14 = 500 := by simp [pesoDoFim, doFim, dfLimite, reg]
    have h1 : pesoDoFim dfLimite 1 = 501 := by simp [pesoDoFim, doFim, dfLimite, reg]
    have hB : decide (-(1 / 10) < taxaPerda 500 501) = false :=
      decide_eq_false (by rw [htaxa]; exact lt_irrefl _)
    simp [h14, h1, hB]
    rw [htaxa]
    intro _
    norm_num

/-- Claim C5 amended: the plateau flag is computed only when at least 14
records exist; it is then the boolean of "rate strictly below 0.5 %/week AND
strictly above −0.1 %/week" (a rate of exactly −0.1 or below does not trigger
it); with fewer than 14 records the flags dict carries no plateau key at all
(`none`) — the flag is omitted, not defaulted to `False`. -/
theorem C5_plato_flag :
    (∀ (dA dC : ℤ) (bf : ℚ) (sexo : String) (df : List Registro) (r14 rL : Registro),
      14 ≤ df.length → doFim df 14 = some r14 → doFim df 1 = some rL →
      (sugerir_fase_e_timeline dA dC bf sexo df).2.2.platoMetabolico =
        some (decide (taxaPerda r14.peso rL.peso < 1 / 2) &&
          decide (-(1 / 10) < taxaPerda r14.peso rL.peso))) ∧
    (∀ (dA dC : ℤ) (bf : ℚ) (sexo : String) (df : List Registro), df.length < 14 →
      (sugerir_fase_e_timeline dA dC bf sexo df).2.2.platoMetabolico = none) := by
  constructor
  · intro dA dC bf sexo df r14 rL hlen h14 h1
    rw [flags_sugerir, flagsDe, if_pos hlen]
    have hp14 : pesoDoFim df 14 = r14.peso := by rw [pesoDoFim, h14]; rfl
    have hp1 : pesoDoFim df 1 = rL.peso := by rw [pesoDoFim, h1]; rfl
    simp [hp14, hp1]
  · intro dA dC bf sexo df hlen
    rw [flags_sugerir, flagsDe, if_neg (by omega)]

/-- Fourteen records falling from 100 kg (14 records back) to 95 kg (today). -/
def df14w : List Registro :=
  [reg 1 100 10, reg 2 98 10, reg 3 98 10, reg 4 98 10, reg 5 98 10, reg 6 98 10,
   reg 7 98 10, reg 8 98 10, reg 9 98 10, reg 10 98 10, reg 11 98 10, reg 12 98 10,
   reg 13 98 10, reg 14 95 10]

/-- Claim C5 witness: on `df14w` the rate is 2.5 %/week (not below 0.5), so the
plateau flag is present and `False`; on a 7-record series it is absent. -/
theorem C5_plato_flag_witness :
    (sugerir_fase_e_timeline 14 300 10 "Masculino" df14w).2.2.platoMetabolico = some false ∧
    (sugerir_fase_e_timeline 14 300 10 "Masculino" dfIns5).2.2.platoMetabolico = none := by
  constructor
  · rw [C5_plato_flag.1 14 300 10 "Masculino" df14w (reg 1 100 10) (reg 14 95 10)
      (by simp [df14w]) (by simp [doFim, df14w]) (by simp [doFim, df14w])]
    have hA : decide (taxaPerda (reg 1 100 10).peso (reg 14 95 10).peso < 1 / 2) = false :=
      decide_eq_false (by norm_num [taxaPerda, reg])
    simp [hA]
    intro h
    norm_num [taxaPerda, reg] at h
  · exact C5_plato_flag.2 14 300 10 "Masculino" dfIns5 (by simp [dfIns5])

/-- Seven records spanning 14 days, 100 kg at day 0 and 95 kg at day 14. -/
def df7c : List Registro :=
  [reg 0 100 10, reg 2 99 10, reg 4 98 10, reg 6 97 10, reg 8 96 10, reg 11 (191 / 2) 10,
   reg 14 95 10]

/-- Claim C6 counterexample: a series of 7 records spanning 14 days with 100 kg
14 days back and 95 kg today — which the claim says yields exactly 2.5 %/week —
gets NO loss rate at all from the source: the computation requires 14 records,
not 7, so the flag is absent instead of `2.5`. -/
theorem C6_counterexample :
    df7c.length = 7 ∧
    (sugerir_fase_e_timeline 14 300 10 "Masculino" df7c).2.2.taxaPerdaPeso = none ∧
    (sugerir_fase_e_timeline 14 300 10 "Masculino" df7c).2.2.taxaPerdaPeso ≠ some (5 / 2) := by
  have h : (sugerir_fase_e_timeline 14 300 10 "Masculino" df7c).2.2.taxaPerdaPeso = none := by
    rw [flags_sugerir, flagsDe, if_neg (by simp [df7c])]
  exact ⟨rfl, h, by rw [h]; simp⟩

/-- Claim C6 amended: the loss-rate extractor requires at least 14 records (not
7) and reports `none` below that floor; when defined it is
`((w₁₄ − w₁) / w₁₄) × 100 / 2` — `w₁₄` the weight of the 14th-most-recent
record, `w₁` the most recent — rounded to 3 decimals, so a series whose
14th-most-recent weight is 100 kg and latest weight is 95 kg yields exactly
2.5 %/week. -/
theorem C6_taxa_perda_peso :
    (∀ (dA dC : ℤ) (bf : ℚ) (sexo : String) (df : List Registro) (r14 rL : Registro),
      14 ≤ df.length → doFim df 14 = some r14 → doFim df 1 = some rL →
      (sugerir_fase_e_timeline dA dC bf sexo df).2.2.taxaPerdaPeso =
        some (roundTo (taxaPerda r14.peso rL.peso) 3)) ∧
    (∀ (dA dC : ℤ) (bf : ℚ) (sexo : String) (df : List Registro), df.length < 14 →
      (sugerir_fase_e_timeline dA dC bf sexo df).2.2.taxaPerdaPeso = none) := by
  constructor
  · intro dA dC bf sexo df r14 rL hlen h14 h1
    rw [flags_sugerir, flagsDe, if_pos hlen]
    have hp14 : pesoDoFim df 14 = r14.peso := by rw [pesoDoFim, h14]; rfl
    have hp1 : pesoDoFim df 1 = rL.peso := by rw [pesoDoFim, h1]; rfl
    simp [hp14, hp1]
  · intro dA dC bf sexo df hlen
    rw [flags_sugerir, flagsDe, if_neg (by omega)]

/-- Claim C6 witness: on `df14w` (100 kg at the 14th-most-recent record, 95 kg
today) the stored loss rate is exactly 2.5 %/week; on a 7-record series it is
absent. -/
theorem C6_taxa_perda_peso_witness :
    (sugerir_fase_e_timeline 14 300 10 "Masculino" df14w).2.2.taxaPerdaPeso = some (5 / 2) ∧
    (sugerir_fase_e_timeline 14 300 10 "Masculino" df7c).2.2.taxaPerdaPeso = none := by
  constructor
  · rw [C6_taxa_perda_peso.1 14 300 10 "Masculino" df14w (reg 1 100 10) (reg 14 95 10)
      (by simp [df14w]) (by simp [doFim, df14w]) (by simp [doFim, df14w])]
    have h : taxaPerda (reg 1 100 10).peso (reg 14 95 10).peso = 5 / 2 := by
      norm_num [taxaPerda, reg]
    rw [h]
    norm_num [roundTo, round_eq]
  · exact C6_taxa_perda_peso.2 14 300 10 "Masculino" df7c (by simp [df7c])

/-- An empty flags dict (the argument `calcular_macros_semana` never reads). -/
def flagsVazias : FaseFlags := {}

/-- Claim C7 amended: `calcular_macros_semana` performs no positivity
validation of weight or body-fat% at all — for every snapshot, including zero,
negative or missing (zero-sentinel) weight and body-fat%, it silently computes
lean mass as `peso * (1 - bf/100)` and returns a full 7-row macro table; no
`ValidationError` exists in the engine (sane fallbacks are supplied upstream
by the caller). -/
theorem C7_macros_sem_validacao (a : AtletaMetrics) (df : List Registro) (fl : FaseFlags) :
    (calcular_macros_semana a df fl).plano.length = 7 := by
  unfold calcular_macros_semana
  split
  · simp [diasSemana]
  · split
    · rfl
    · split
      · rfl
      · simp [diasSemana]

/-- A snapshot with zero weight and zero body-fat%. -/
def atletaZerado : AtletaMetrics := { atletaBase with peso := 0, bfAtual := 0 }

/-- Claim C7 counterexample: with weight 0 and body-fat% 0 the engine does not
report a `ValidationError` — it silently produces a full 7-row macro table
(with lean mass 0). -/
theorem C7_counterexample :
    atletaZerado.peso = 0 ∧ atletaZerado.bfAtual = 0 ∧ atletaZerado.lbm = 0 ∧
    (calcular_macros_semana atletaZerado [] flagsVazias).plano.length = 7 := by
  refine ⟨rfl, rfl, ?_, ?_⟩
  · simp [AtletaMetrics.lbm, atletaZerado, atletaBase]
  · unfold calcular_macros_semana
    split
    · simp [diasSemana]
    · split
      · rfl
      · split
        · rfl
        · simp [diasSemana]

/-- Claim C4 amended: in the Cutting phase (with at most 4 cutting-history
weeks, so no thermogenesis correction on top), the plan is 5 low-carb deficit
days at `cal_base` — a deficit of exactly 500 kcal below maintenance, widened
to exactly **700** kcal (not 650) when the plateau condition
(`estagnado_dias ≥ 7`) holds — alternating with 2 refeed days at maintenance
calories; protein is fixed at 3.1 g per kg of lean mass on all 7 days; fat is
identical on refeed and low-carb days (the whole refeed surplus goes to
carbohydrate); refeed carbohydrate = low-carb carbohydrate + the full calorie
gap / 4 g. -/
theorem C4_macros_cutting (a : AtletaMetrics) (df : List Registro) (fl : FaseFlags)
    (hfase : a.faseSugerida = "Cutting") (hsem : semanasDeficitDe a df ≤ 4) :
    getDe a - cuttingCalBase a (semanasDeficitDe a df) =
      (if (7 : ℤ) ≤ a.estagnadoDias then 700 else 500) ∧
    ((calcular_macros_semana a df fl).plano.map fun r => (r.estrategia, r.calorias)) =
      (List.replicate 5 ("Low Carb (Déficit)", round (cuttingCalBase a (semanasDeficitDe a df))) ++
       List.replicate 2 ("Refeed (Manutenção)", round (getDe a))) ∧
    ((calcular_macros_semana a df fl).plano.map PlanoDia.prot) =
      List.replicate 7 (round (a.lbm * (31 / 10))) ∧
    ((calcular_macros_semana a df fl).plano.map PlanoDia.gord) =
      List.replicate 7 (round (a.peso * (7 / 10))) ∧
    ((calcular_macros_semana a df fl).plano.map PlanoDia.carb) =
      (List.replicate 5 (round (max 30 ((cuttingCalBase a (semanasDeficitDe a df) -
          a.lbm * (31 / 10) * 4 - a.peso * (7 / 10) * 9) / 4))) ++
       List.replicate 2 (round (max 30 ((cuttingCalBase a (semanasDeficitDe a df) -
          a.lbm * (31 / 10) * 4 - a.peso * (7 / 10) * 9) / 4) +
          (getDe a - cuttingCalBase a (semanasDeficitDe a df)) / 4))) := by
  have hcb : cuttingCalBase a (semanasDeficitDe a df) =
      if (7 : ℤ) ≤ a.estagnadoDias then getDe a - 500 - 200 else getDe a - 500 := by
    rw [cuttingCalBase, aplicar_termogenese_adaptativa, if_pos hsem]
  have hnb : ¬ (a.faseSugerida = "Bulking") := by rw [hfase]; simp
  refine ⟨?_, ?_, ?_, ?_, ?_⟩
  · rw [hcb]
    split <;> ring
  all_goals
    unfold calcular_macros_semana
    rw [if_neg hnb, if_pos (Or.inl hfase)]
    simp [List.replicate]

/-- Claim C4 witness: for `atletaBase` (Cutting, no stagnation, no history) the
low-carb deficit is exactly 500 kcal and protein is 223 g (= round(72 × 3.1))
on every day. -/
theorem C4_macros_cutting_witness :
    getDe atletaBase - cuttingCalBase atletaBase (semanasDeficitDe atletaBase []) = 500 ∧
    ((calcular_macros_semana atletaBase [] flagsVazias).plano.map PlanoDia.prot) =
      List.replicate 7 223 := by
  have h := C4_macros_cutting atletaBase [] flagsVazias rfl (by simp [semanasDeficitDe])
  constructor
  · rw [h.1]
    norm_num [atletaBase]
  · rw [h.2.2.1]
    have : atletaBase.lbm * (31 / 10) = 1116 / 5 := by
      norm_num [AtletaMetrics.lbm, atletaBase]
    rw [this]
    norm_num [round_eq]

/-- The base athlete with the plateau condition set (7 stagnation days). -/
def atletaPlato : AtletaMetrics := { atletaBase with estagnadoDias := 7 }

/-- Claim C4 counterexample: with the plateau condition set, the low-carb-day
deficit below maintenance is exactly 700 kcal, not the claimed 650: daily
calories are 2284 on the 5 deficit days against a maintenance of 2984. -/
theorem C4_counterexample :
    getDe atletaPlato - cuttingCalBase atletaPlato (semanasDeficitDe atletaPlato []) = 700 ∧
    (700 : ℚ) ≠ 650 ∧
    ((calcular_macros_semana atletaPlato [] flagsVazias).plano.map PlanoDia.calorias) =
      [2284, 2284, 2284, 2284, 2284, 2984, 2984] := by
  have hsem : semanasDeficitDe atletaPlato [] = 0 := by simp [semanasDeficitDe]
  have hget : getDe atletaPlato = 149203 / 50 := by
    norm_num [getDe, calcular_get, calcular_tmb_katch_mcardle, atletaPlato, atletaBase]
  have hcb : cuttingCalBase atletaPlato (semanasDeficitDe atletaPlato []) = 114203 / 50 := by
    rw [hsem, cuttingCalBase, aplicar_termogenese_adaptativa, if_pos (by norm_num),
      if_pos (by norm_num [atletaPlato, atletaBase]), hget]
    norm_num
  refine ⟨by rw [hget, hcb]; norm_num, by norm_num, ?_⟩
  have hf : atletaPlato.faseSugerida = "Cutting" := rfl
  unfold calcular_macros_semana
  rw [if_neg (by simp [atletaPlato, atletaBase]), if_pos (Or.inl hf)]
  simp only [List.map_cons, List.map_nil]
  rw [hcb, hget]
  norm_num [round_eq]

/-- Claim C1: for every record series of at least 7 rows, whenever the
generated weekly adjustment list contains both a positive and a negative
calorie delta, the evaluator returns status `conflito` with exactly one
conflict entry carrying 2–3 resolution options — pairwise distinctly labelled
(mutually exclusive choices), each with its own non-zero calorie delta — and
the opposing adjustments are not returned as unconditional recommendations
(the status is `conflito`, not `ok`/`on_track`). -/
theorem C1_conflito_multi_objetivo (df : List Registro) (metas : Metas) (fase : String)
    (h7 : 7 ≤ df.length)
    (hp : ∃ a ∈ ajustesGerados df metas fase, 0 < a.deltaCalorias)
    (hn : ∃ a ∈ ajustesGerados df metas fase, a.deltaCalorias < 0) :
    (avaliar_resultados_semana df metas fase).status = "conflito" ∧
    ∃ c, (avaliar_resultados_semana df metas fase).conflitos = [c] ∧
      (c.opcoes.length = 2 ∨ c.opcoes.length = 3) ∧
      c.opcoes.Pairwise (fun o o' => o.label ≠ o'.label) ∧
      ∀ o ∈ c.opcoes, o.deltaCalorias ≠ 0 := by
  have hs : temSubirDe df metas fase = true := by
    rw [temSubirDe, List.any_eq_true]
    obtain ⟨a, ha, hpos⟩ := hp
    exact ⟨a, ha, decide_eq_true hpos⟩
  have hd : temDescerDe df metas fase = true := by
    rw [temDescerDe, List.any_eq_true]
    obtain ⟨a, ha, hneg⟩ := hn
    exact ⟨a, ha, decide_eq_true hneg⟩
  have hc : conflitosDe df metas fase =
      [if fase = "Bulking" then conflitoBulking else conflitoCutting] := by
    rw [conflitosDe, hs, hd]
    rfl
  have hres : avaliar_resultados_semana df metas fase =
      { deltaPeso := deltaPesoDe df, deltaLbm := deltaLbmDe df, deltaFm := deltaFmDe df,
        deltaBf := deltaBfDe df,
        ajustes := ordenarAjustes (ajustesGerados df metas fase),
        conflitos := conflitosDe df metas fase,
        status := if temSubirDe df metas fase && temDescerDe df metas fase then "conflito"
          else "ok",
        msg := none } := by
    rw [avaliar_resultados_semana, if_neg (by omega), if_neg (by rw [hc]; simp)]
  rw [hres]
  refine ⟨by rw [hs, hd]; rfl, ?_⟩
  by_cases hf : fase = "Bulking"
  · refine ⟨conflitoBulking, ?_, ?_, ?_, ?_⟩
    · show conflitosDe df metas fase = [conflitoBulking]
      rw [hc, if_pos hf]
    · right
      rfl
    · simp [conflitoBulking]
    · intro o ho
      simp [conflitoBulking] at ho
      rcases ho with h | h | h <;> simp [h]
  · refine ⟨conflitoCutting, ?_, ?_, ?_, ?_⟩
    · show conflitosDe df metas fase = [conflitoCutting]
      rw [hc, if_neg hf]
    · left
      rfl
    · simp [conflitoCutting]
    · intro o ho
      simp [conflitoCutting] at ho
      rcases ho with h | h <;> simp [h]

/-- Seven Bulking-week records: weight 80 → 80.1 kg (gain below the 0.3 kg
minimum) while body-fat rises 10% → 10.5% (fat-mass gain above its 0.1 kg cap). -/
def dfC1 : List Registro :=
  [reg 0 80 10, reg 1 80 10, reg 2 80 10, reg 3 80 10, reg 4 80 10, reg 5 80 10,
   reg 6 (801 / 10) (21 / 2)]

/-- Bulking targets: minimum weekly gain 0.3 kg, maximum 1.5 kg, fat-mass gain
cap 0.1 kg, body-fat ceiling 99%. -/
def metasC1 : Metas :=
  { ganhoPesoMin := some (3 / 10), ganhoPesoMax := some (3 / 2), ganhoFmMax := some (1 / 10),
    bfMax := some 99 }

/-- Claim C1 witness: on `dfC1` the Bulking evaluation generates both a +200
and a −150 kcal adjustment, and the evaluator's status is `conflito`. -/
theorem C1_conflito_multi_objetivo_witness :
    (∃ a ∈ ajustesGerados dfC1 metasC1 "Bulking", 0 < a.deltaCalorias) ∧
    (∃ a ∈ ajustesGerados dfC1 metasC1 "Bulking", a.deltaCalorias < 0) ∧
    (avaliar_resultados_semana dfC1 metasC1 "Bulking").status = "conflito" := by
  have hdp : deltaPesoDe dfC1 = 1 / 10 := by
    simp [deltaPesoDe, pesoDoFim, doFim, dfC1, reg]
    norm_num [roundTo, round_eq]
  have hdf : deltaFmDe dfC1 = 41 / 100 := by
    simp [deltaFmDe, fmDe, pesoDoFim, bfDoFim, doFim, dfC1, reg]
    norm_num [roundTo, round_eq]
  have hbf : bfDoFim dfC1 1 = 21 / 2 := by
    simp [bfDoFim, doFim, dfC1, reg]
  have haj : ajustesGerados dfC1 metasC1 "Bulking" =
      [{ objetivo := "Ganho de Massa", acao := "Aumentar calorias +200kcal/dia",
         deltaCalorias := 200, prioridade := 2 },
       { objetivo := "Controle de Gordura", acao := "Reduzir calorias -150kcal/dia",
         deltaCalorias := -150, prioridade := 1 }] := by
    rw [ajustesGerados, hdp, hdf, hbf]
    rw [ajustesDe, if_pos rfl]
    norm_num [metasC1]
  have hp : ∃ a ∈ ajustesGerados dfC1 metasC1 "Bulking", 0 < a.deltaCalorias := by
    rw [haj]
    exact ⟨{ objetivo := "Ganho de Massa", acao := "Aumentar calorias +200kcal/dia",
             deltaCalorias := 200, prioridade := 2 }, by simp, by decide⟩
  have hn : ∃ a ∈ ajustesGerados dfC1 metasC1 "Bulking", a.deltaCalorias < 0 := by
    rw [haj]
    exact ⟨{ objetivo := "Controle de Gordura", acao := "Reduzir calorias -150kcal/dia",
             deltaCalorias := -150, prioridade := 1 }, by simp, by decide⟩
  exact ⟨hp, hn,
    (C1_conflito_multi_objetivo dfC1 metasC1 "Bulking" (by simp [dfC1]) hp hn).1⟩
